import Mathlib

/-!
Verification of the conversational-memory and request-orchestration core of
the `lang_ai` repository against its natural-language specification.

The embedded source files are:
* `src/lib/errorHandling.ts` — `AIError`, `parseAIError`, `isRetryableError`,
  `retryConfig`, `validateApiKey`;
* `src/lib/chatConfig.ts` — `isValidApiKey`;
* `src/hooks/useAIQuery.ts` (`useAIChat` hook) — the message buffer
  (`messages` state), `mutationFn`, `onSuccess` (append + trim), `clearHistory`,
  `reset`;
* the `AIChat` component — `handleSend` (precondition checks before sending).

JavaScript strings are modelled as Lean `String`, JS array slices with a
negative argument by `sliceNeg` (including the `slice(-0)` corner case),
thrown JS values by the inductive `JSValue`, and wall-clock timestamps by
`Int` parameters.
-/

namespace LangAI

/-- Message role, from the `ChatMessage` interface in `useAIQuery.ts`,
where `role` is the union of the two string literals user and assistant. -/
inductive Role
  | user
  | assistant
deriving DecidableEq, Repr

/-- Structure `ChatMessage` from `useAIQuery.ts`:
`{ role; content: string; timestamp: number }`. -/
structure ChatMessage where
  role : Role
  content : String
  timestamp : Int
deriving DecidableEq, Repr

/-- JavaScript `String.prototype.toLowerCase`, restricted to the per-character
lowering relevant for the ASCII error messages matched by `parseAIError`. -/
def toLowerCase (s : String) : String :=
  String.mk (s.toList.map Char.toLower)

/-- Contiguous-sublist search over character lists: does `pat` occur inside
the second list? -/
def subSearch (pat : List Char) : List Char → Bool
  | [] => pat.isEmpty
  | c :: rest => pat.isPrefixOf (c :: rest) || subSearch pat rest

/-- JavaScript `String.prototype.includes`: contiguous-substring test. -/
def includes (s pattern : String) : Bool :=
  subSearch pattern.toList s.toList

/-- JavaScript `String.prototype.startsWith`, as a prefix test over the
character list. -/
def strStartsWith (s pre : String) : Bool :=
  pre.toList.isPrefixOf s.toList

/-- JavaScript `String.prototype.trim`: strip leading and trailing
whitespace. -/
def strTrim (s : String) : String :=
  String.mk (((s.toList.dropWhile Char.isWhitespace).reverse.dropWhile
    Char.isWhitespace).reverse)

/-- Class `AIError` from `errorHandling.ts` (fields `message`, `code`,
`isRetryable`; the constant `name` field is omitted). -/
structure AIError where
  message : String
  code : String
  isRetryable : Bool
deriving DecidableEq, Repr

/-- Constant `ERROR_CODES.NO_API_KEY` from `errorHandling.ts`. -/
def ERROR_CODES.NO_API_KEY : String := "NO_API_KEY"

/-- Constant `ERROR_CODES.INVALID_API_KEY` from `errorHandling.ts`. -/
def ERROR_CODES.INVALID_API_KEY : String := "INVALID_API_KEY"

/-- Constant `ERROR_CODES.RATE_LIMIT` from `errorHandling.ts`. -/
def ERROR_CODES.RATE_LIMIT : String := "RATE_LIMIT"

/-- Constant `ERROR_CODES.NETWORK_ERROR` from `errorHandling.ts`. -/
def ERROR_CODES.NETWORK_ERROR : String := "NETWORK_ERROR"

/-- Constant `ERROR_CODES.TIMEOUT` from `errorHandling.ts`. -/
def ERROR_CODES.TIMEOUT : String := "TIMEOUT"

/-- Constant `ERROR_CODES.MODEL_ERROR` from `errorHandling.ts`. -/
def ERROR_CODES.MODEL_ERROR : String := "MODEL_ERROR"

/-- Constant `ERROR_CODES.UNKNOWN` from `errorHandling.ts`. -/
def ERROR_CODES.UNKNOWN : String := "UNKNOWN"

/-- A JavaScript value reaching `parseAIError` (typed `unknown` in the
source): an `AIError` instance, a standard `Error` carrying a message, or any
other value (string, number, ...). -/
inductive JSValue
  | aiError (e : AIError)
  | jsError (message : String)
  | other
deriving DecidableEq, Repr

/-- Function `parseAIError` from `errorHandling.ts` lines 42-116: pass `AIError`
instances through; classify a standard `Error` by first-match-wins,
case-insensitive substring tests over its message; map anything else to a
generic unknown error. -/
def parseAIError : JSValue → AIError
  | .aiError e => e
  | .jsError errMessage =>
    let message := toLowerCase errMessage
    if includes message "api key" && includes message "not" then
      AIError.mk "OpenAI API key not configured. Please add your API key in settings."
        ERROR_CODES.NO_API_KEY false
    else if includes message "invalid" || includes message "unauthorized" then
      AIError.mk "Invalid API key. Please check your OpenAI API key in settings."
        ERROR_CODES.INVALID_API_KEY false
    else if includes message "rate limit" || includes message "429" then
      AIError.mk "API rate limit exceeded. Please wait a moment and try again."
        ERROR_CODES.RATE_LIMIT true
    else if includes message "network" || includes message "fetch" then
      AIError.mk "Network error. Please check your internet connection and try again."
        ERROR_CODES.NETWORK_ERROR true
    else if includes message "timeout" then
      AIError.mk "Request timed out. The AI model is taking too long to respond. Please try again."
        ERROR_CODES.TIMEOUT true
    else if includes message "model" then
      AIError.mk "AI model error. The model encountered an issue. Please try again."
        ERROR_CODES.MODEL_ERROR true
    else
      AIError.mk errMessage ERROR_CODES.UNKNOWN true
  | .other =>
    AIError.mk "An unexpected error occurred. Please try again."
      ERROR_CODES.UNKNOWN true

/-- Function `isRetryableError` from `errorHandling.ts` lines 135-138. -/
def isRetryableError (error : JSValue) : Bool :=
  (parseAIError error).isRetryable

/-- Field `retryConfig.retry` from `errorHandling.ts` lines 148-156: stop after 3
failures, otherwise retry exactly when the error is retryable. -/
def retryConfigRetry (failureCount : Nat) (error : JSValue) : Bool :=
  if failureCount ≥ 3 then false
  else isRetryableError error

/-- Field `retryConfig.retryDelay` from `errorHandling.ts` lines 162-164:
`Math.min(1000 * 2 ** attemptIndex, 30000)`. -/
def retryConfigRetryDelay (attemptIndex : Nat) : Nat :=
  min (1000 * 2 ^ attemptIndex) 30000

/-- Function `validateApiKey` from `errorHandling.ts` lines 192-216. The argument is
`string | undefined | null`, modelled as `Option String` (`none` for
`undefined`/`null`); JS `!apiKey` is true for `undefined`, `null` and `""`.
Returns the thrown `AIError`, or `none` when the key passes. -/
def validateApiKey : Option String → Option AIError
  | none =>
    some (AIError.mk "OpenAI API key not configured. Please add your API key in settings."
      ERROR_CODES.NO_API_KEY false)
  | some apiKey =>
    if apiKey = "" then
      some (AIError.mk "OpenAI API key not configured. Please add your API key in settings."
        ERROR_CODES.NO_API_KEY false)
    else if ¬ strStartsWith apiKey "sk-" then
      some (AIError.mk "Invalid API key format. OpenAI API keys should start with \"sk-\"."
        ERROR_CODES.INVALID_API_KEY false)
    else if apiKey.length < 20 then
      some (AIError.mk "Invalid API key. The key appears to be too short."
        ERROR_CODES.INVALID_API_KEY false)
    else
      none

/-- Function `isValidApiKey` from `chatConfig.ts` lines 115-117:
a string that starts with `"sk-"` and has `length > 20`. -/
def isValidApiKey : Option String → Bool
  | none => false
  | some apiKey => strStartsWith apiKey "sk-" && apiKey.length > 20

/-- JavaScript `arr.slice(-k)` for a natural `k`: the last `k` elements of
the array — except that `k = 0` gives `slice(-0)`, which equals `slice(0)`
and returns the whole array (`ToIntegerOrInfinity(-0)` is `+0` in
ECMA-262). -/
def sliceNeg {α : Type} (l : List α) (k : Nat) : List α :=
  if k = 0 then l else l.drop (l.length - k)

/-- The `onSuccess` handler of `useAIChat` (useAIQuery.ts lines 260-277):
append the user turn then the assistant turn, and when the result exceeds
`maxMessages * 2` entries keep only `newMessages.slice(-maxMessages * 2)`. -/
def appendExchange (maxMessages : Nat) (prev : List ChatMessage)
    (userMessage assistantMessage : ChatMessage) : List ChatMessage :=
  let newMessages := prev ++ [userMessage, assistantMessage]
  if newMessages.length > maxMessages * 2 then
    sliceNeg newMessages (maxMessages * 2)
  else
    newMessages

/-- The outbound request built by `useAIChat.mutationFn` (lines 222-232):
the last `maxMessages * 2` stored messages as role/content pairs, followed
by the new user message. -/
def outboundMessages (maxMessages : Nat) (messages : List ChatMessage)
    (message : String) : List (Role × String) :=
  (sliceNeg messages (maxMessages * 2)).map (fun m => (m.role, m.content)) ++
    [(Role.user, message)]

/-- One execution of `useAIChat.mutationFn` (lines 214-254): validate the
API key (throwing before the try block), then invoke the completion
collaborator once with the bounded history plus the new user message; a
collaborator failure is rethrown through `parseAIError`. The collaborator is
a function of the attempt number and the outbound messages, returning reply
text or a thrown value. Returns the result of the attempt together with the
number of collaborator invocations it performed. -/
def mutationFnAttempt (maxMessages : Nat) (messages : List ChatMessage)
    (message : String) (apiKey : Option String)
    (collab : Nat → List (Role × String) → Except JSValue String)
    (attempt : Nat) : Except AIError String × Nat :=
  match validateApiKey apiKey with
  | some e => (.error e, 0)
  | none =>
    match collab attempt (outboundMessages maxMessages messages message) with
    | .ok reply => (.ok reply, 1)
    | .error e => (.error (parseAIError e), 1)

/-- Modelled from the spec: §9 records that retry is performed by the
configuration of the generic caching/mutation library rather than an explicit
loop in the source, and the library itself is not part of this repository.
Per the contract documented by the `retryConfig` comments in
`errorHandling.ts`, a failed attempt is retried exactly when
`retry(failureCount, error)` returns true, `failureCount` counting the
failures that have already occurred (0 at the first failure). `fuel` bounds
the recursion; since `retryConfigRetry` refuses once `failureCount ≥ 3`,
fuel 4 is never exhausted from `failureCount = 0`. Returns the final result
and the total number of collaborator invocations. -/
def driveMutation (maxMessages : Nat) (messages : List ChatMessage)
    (message : String) (apiKey : Option String)
    (collab : Nat → List (Role × String) → Except JSValue String) :
    Nat → Nat → Except AIError String × Nat
  | 0, failureCount =>
    mutationFnAttempt maxMessages messages message apiKey collab failureCount
  | fuel + 1, failureCount =>
    match mutationFnAttempt maxMessages messages message apiKey collab failureCount with
    | (.ok reply, c) => (.ok reply, c)
    | (.error e, c) =>
      if retryConfigRetry failureCount (.aiError e) then
        let rest :=
          driveMutation maxMessages messages message apiKey collab fuel (failureCount + 1)
        (rest.1, c + rest.2)
      else
        (.error e, c)

/-- The complete retrying mutation run, as configured by spreading
`retryConfig` into `useMutation` (useAIQuery.ts line 257). -/
def runMutation (maxMessages : Nat) (messages : List ChatMessage)
    (message : String) (apiKey : Option String)
    (collab : Nat → List (Role × String) → Except JSValue String) :
    Except AIError String × Nat :=
  driveMutation maxMessages messages message apiKey collab 4 0

/-- One `sendMessage` round trip of `useAIChat`: run the mutation (with the
automatic retries of the library); on final success the `onSuccess` handler
appends the user turn and the assistant turn (wall-clock stamps `tUser` and
`tAssistant` model the two separate `Date.now()` reads) and trims; on final
failure `onError` only logs, leaving the message state untouched. Returns
(result, post message state, number of collaborator invocations). -/
def submit (maxMessages : Nat) (messages : List ChatMessage) (message : String)
    (apiKey : Option String)
    (collab : Nat → List (Role × String) → Except JSValue String)
    (tUser tAssistant : Int) :
    Except AIError String × List ChatMessage × Nat :=
  match runMutation maxMessages messages message apiKey collab with
  | (.ok reply, calls) =>
    (.ok reply,
      appendExchange maxMessages messages
        (ChatMessage.mk Role.user message tUser)
        (ChatMessage.mk Role.assistant reply tAssistant),
      calls)
  | (.error e, calls) => (.error e, messages, calls)

/-- Outcome of `AIChat.handleSend`: one of the three early-return toasts, or
the result of the dispatched `sendMessage`. -/
inductive SendOutcome
  | emptyInput
  | missingApiKey
  | invalidApiKeyFormat
  | sent (result : Except AIError String)
deriving Repr

/-- Function `AIChat.handleSend` (component lines 84-112): reject blank input
("Please enter a message"), then a missing key, then a key rejected by
`isValidApiKey`, all before dispatching anything; otherwise send the trimmed
input through `useAIChat.sendMessage`. Returns (outcome, post message state,
number of collaborator invocations). -/
def handleSend (maxMessages : Nat) (messages : List ChatMessage)
    (input : String) (apiKey : Option String)
    (collab : Nat → List (Role × String) → Except JSValue String)
    (tUser tAssistant : Int) :
    SendOutcome × List ChatMessage × Nat :=
  if strTrim input = "" then (.emptyInput, messages, 0)
  else
    match apiKey with
    | none => (.missingApiKey, messages, 0)
    | some key =>
      if key = "" then (.missingApiKey, messages, 0)
      else if ¬ isValidApiKey (some key) then (.invalidApiKeyFormat, messages, 0)
      else
        match submit maxMessages messages (strTrim input) (some key) collab tUser tAssistant with
        | (res, post, calls) => (.sent res, post, calls)

/-- Written from the words of the spec, for comparison with the code: "the last
`2 * retention_bound` elements" of a sequence — its suffix of length `k`
(the whole sequence when shorter). -/
def lastElems {α : Type} (k : Nat) (l : List α) : List α :=
  l.drop (l.length - k)

/-- Default message, used only to totalize positional lookups. -/
def dummyMessage : ChatMessage := ChatMessage.mk Role.user "" 0

/-- The pairing invariant of the spec, stated positionally as in §8: the length
is even, and every even index holds a user turn immediately followed by an
assistant turn. -/
def Paired (l : List ChatMessage) : Prop :=
  l.length % 2 = 0 ∧
    ∀ i < l.length, i % 2 = 0 →
      (l.getD i dummyMessage).role = Role.user ∧
      (l.getD (i + 1) dummyMessage).role = Role.assistant

instance decidablePaired (l : List ChatMessage) : Decidable (Paired l) := by
  unfold Paired
  infer_instance

/-- Structural form of the pairing invariant: a sequence of user/assistant
pairs. -/
inductive PairedL : List ChatMessage → Prop
  | nil : PairedL []
  | cons (u a : ChatMessage) (l : List ChatMessage) :
      u.role = Role.user → a.role = Role.assistant → PairedL l →
      PairedL (u :: a :: l)

/-- One state change of the `useAIChat` message state, exactly as the hook
exposes them: a successful `sendMessage` (the `onSuccess` append + trim,
useAIQuery.ts lines 260-277), `clearHistory` (lines 298-300), and `reset`
with an arbitrary payload (lines 305-310); `initialMessages` makes the
start state equally arbitrary (lines 204-208). -/
inductive Step (maxMessages : Nat) : List ChatMessage → List ChatMessage → Prop
  | success (s : List ChatMessage) (message reply : String) (tUser tAssistant : Int) :
      Step maxMessages s
        (appendExchange maxMessages s
          (ChatMessage.mk Role.user message tUser)
          (ChatMessage.mk Role.assistant reply tAssistant))
  | clearHistory (s : List ChatMessage) : Step maxMessages s []
  | reset (s ms : List ChatMessage) : Step maxMessages s ms

/-- Relation `Step` with `reset` — the only payload-carrying transition — restricted
to paired payloads. -/
inductive StepP (maxMessages : Nat) : List ChatMessage → List ChatMessage → Prop
  | success (s : List ChatMessage) (message reply : String) (tUser tAssistant : Int) :
      StepP maxMessages s
        (appendExchange maxMessages s
          (ChatMessage.mk Role.user message tUser)
          (ChatMessage.mk Role.assistant reply tAssistant))
  | clearHistory (s : List ChatMessage) : StepP maxMessages s []
  | reset (s ms : List ChatMessage) (h : Paired ms) : StepP maxMessages s ms

/-! ### Turn-store lemmas -/

lemma appendExchange_length_le (maxMessages : Nat) (hmax : 1 ≤ maxMessages)
    (prev : List ChatMessage) (u a : ChatMessage) :
    (appendExchange maxMessages prev u a).length ≤ 2 * maxMessages := by
  unfold appendExchange sliceNeg
  by_cases h : (prev ++ [u, a]).length > maxMessages * 2
  · have hk : ¬ (maxMessages * 2 = 0) := by omega
    simp only [h, if_true, if_pos, hk, if_false, if_neg, not_false_iff]
    simp only [List.length_drop]
    omega
  · simp only [h, if_neg, not_false_iff]
    simp only [List.length_append, List.length_cons, List.length_nil] at h ⊢
    omega

lemma appendExchange_eq_lastElems (maxMessages : Nat) (hmax : 1 ≤ maxMessages)
    (turns : List ChatMessage) (u a : ChatMessage) :
    appendExchange maxMessages turns u a = lastElems (2 * maxMessages) (turns ++ [u, a]) := by
  unfold appendExchange sliceNeg lastElems
  by_cases h : (turns ++ [u, a]).length > maxMessages * 2
  · rw [if_pos h]
    have hk : ¬ (maxMessages * 2 = 0) := by omega
    rw [if_neg hk]
    have hcomm : maxMessages * 2 = 2 * maxMessages := by ring
    rw [hcomm]
  · rw [if_neg h]
    have hz : (turns ++ [u, a]).length - 2 * maxMessages = 0 := by omega
    rw [hz, List.drop_zero]

/-- C2 counterexample: with retention bound 0, the trimming slice is
`slice(-0)`, which keeps the whole array, so one append already exceeds the
claimed bound `2 * retention_bound = 0`. -/
theorem appendExchange_bound_fails_at_zero :
    ¬ ((appendExchange 0 []
        (ChatMessage.mk Role.user "hello" 0)
        (ChatMessage.mk Role.assistant "hi" 1)).length ≤ 2 * 0) := by
  decide

/-- C2 (amended): for every retention bound `maxMessages ≥ 1`, after each
append in any sequence of successful exchange appends — from any starting
state — the stored message sequence has length at most `2 * maxMessages`. -/
theorem appendExchange_seq_length_bound (maxMessages : Nat) (hmax : 1 ≤ maxMessages)
    (init : List ChatMessage) (exchanges : List (ChatMessage × ChatMessage))
    (hne : exchanges ≠ []) :
    (exchanges.foldl (fun s e => appendExchange maxMessages s e.1 e.2) init).length ≤
      2 * maxMessages := by
  rcases (List.eq_nil_or_concat exchanges) with h | ⟨front, e, rfl⟩
  · exact absurd h hne
  · rw [List.concat_eq_append, List.foldl_append, List.foldl_cons, List.foldl_nil]
    exact appendExchange_length_le maxMessages hmax _ e.1 e.2

/-- C2 witness: bound 1, two appends starting from the empty store. -/
theorem appendExchange_seq_length_bound_witness :
    ([((ChatMessage.mk Role.user "a" 0), (ChatMessage.mk Role.assistant "b" 1)),
      ((ChatMessage.mk Role.user "c" 2), (ChatMessage.mk Role.assistant "d" 3))].foldl
        (fun s e => appendExchange 1 s e.1 e.2) []).length ≤ 2 * 1 :=
  appendExchange_seq_length_bound 1 (by decide) [] _ (by decide)

/-- C3 counterexample: with retention bound 0 the code keeps the whole
appended list (`slice(-0)`), while the last `2 * 0 = 0` elements form the
empty list. -/
theorem appendExchange_lastElems_fails_at_zero :
    appendExchange 0 []
        (ChatMessage.mk Role.user "hello" 0)
        (ChatMessage.mk Role.assistant "hi" 1) ≠
      lastElems (2 * 0)
        ([] ++ [ChatMessage.mk Role.user "hello" 0, ChatMessage.mk Role.assistant "hi" 1]) := by
  decide

/-- C3 (amended): for every retention bound `maxMessages ≥ 1`, an append
yields exactly the last `2 * maxMessages` elements of
`turns ++ [user, assistant]` (trimming evicts only the oldest turns); and
with bound 2, appending exchanges E1, E2, E3 in order yields exactly
`[E2.user, E2.assistant, E3.user, E3.assistant]`. -/
theorem appendExchange_evicts_oldest (maxMessages : Nat) (hmax : 1 ≤ maxMessages)
    (turns : List ChatMessage) (u a : ChatMessage) :
    appendExchange maxMessages turns u a = lastElems (2 * maxMessages) (turns ++ [u, a]) ∧
    ∀ e1u e1a e2u e2a e3u e3a : ChatMessage,
      appendExchange 2 (appendExchange 2 (appendExchange 2 [] e1u e1a) e2u e2a) e3u e3a =
        [e2u, e2a, e3u, e3a] := by
  refine ⟨appendExchange_eq_lastElems maxMessages hmax turns u a, ?_⟩
  intro e1u e1a e2u e2a e3u e3a
  simp [appendExchange, sliceNeg]

/-- C3 witness: bound 1, a full store of one exchange plus a new exchange. -/
theorem appendExchange_evicts_oldest_witness :
    appendExchange 1
        [ChatMessage.mk Role.user "a" 0, ChatMessage.mk Role.assistant "b" 1]
        (ChatMessage.mk Role.user "c" 2) (ChatMessage.mk Role.assistant "d" 3) =
      lastElems (2 * 1)
        ([ChatMessage.mk Role.user "a" 0, ChatMessage.mk Role.assistant "b" 1] ++
          [ChatMessage.mk Role.user "c" 2, ChatMessage.mk Role.assistant "d" 3]) :=
  (appendExchange_evicts_oldest 1 (by decide)
    [ChatMessage.mk Role.user "a" 0, ChatMessage.mk Role.assistant "b" 1]
    (ChatMessage.mk Role.user "c" 2) (ChatMessage.mk Role.assistant "d" 3)).1

/-! ### Precondition and policy claims -/

/-- C5: blank input (after trimming) is rejected first: `handleSend` returns
the empty-input outcome, leaves the message state unchanged, and performs
zero collaborator invocations, for any valid credential. -/
theorem handleSend_empty_input_no_call (maxMessages : Nat) (messages : List ChatMessage)
    (input : String) (apiKey : Option String)
    (collab : Nat → List (Role × String) → Except JSValue String) (tUser tAssistant : Int)
    (hempty : strTrim input = "") (hvalid : isValidApiKey apiKey = true) :
    handleSend maxMessages messages input apiKey collab tUser tAssistant =
      (SendOutcome.emptyInput, messages, 0) := by
  unfold handleSend
  rw [hempty]
  simp

/-- C5 witness: whitespace-only input with a well-formed key. -/
theorem handleSend_empty_input_no_call_witness :
    handleSend 10 [] "   " (some "sk-abcdefghijklmnopqrs") (fun _ _ => Except.ok "ok") 0 1 =
      (SendOutcome.emptyInput, [], 0) :=
  handleSend_empty_input_no_call 10 [] "   " (some "sk-abcdefghijklmnopqrs")
    (fun _ _ => Except.ok "ok") 0 1 (by decide) (by decide)

/-- C7: the retry backoff delay for 1-indexed attempt `n` is
`min(1000 * 2^(n-1), 30000)` — concretely `1000, 2000, 4000, 8000, 16000,
30000` for attempts 1..6 (capped at 30000, not 32000) — and the retry
predicate stops after 3 failures and never retries a non-retryable error. -/
theorem retryConfig_backoff_policy :
    (∀ n, 1 ≤ n → n ≤ 6 →
        retryConfigRetryDelay (n - 1) = min (1000 * 2 ^ (n - 1)) 30000 ∧
        retryConfigRetryDelay (n - 1) =
          [1000, 2000, 4000, 8000, 16000, 30000].getD (n - 1) 0) ∧
    (∀ fc, 3 ≤ fc → ∀ e, retryConfigRetry fc e = false) ∧
    (∀ fc e, isRetryableError e = false → retryConfigRetry fc e = false) := by
  refine ⟨?_, ?_, ?_⟩
  · intro n h1 h6
    refine ⟨rfl, ?_⟩
    interval_cases n <;> decide
  · intro fc h3 e
    unfold retryConfigRetry
    rw [if_pos h3]
  · intro fc e h
    unfold retryConfigRetry
    by_cases h3 : fc ≥ 3
    · rw [if_pos h3]
    · rw [if_neg h3]
      exact h

/-- C7 witness: the capped sixth delay, and refusal at the fourth failure
and on a non-retryable error. -/
theorem retryConfig_backoff_policy_witness :
    retryConfigRetryDelay 5 = [1000, 2000, 4000, 8000, 16000, 30000].getD 5 0 ∧
    retryConfigRetry 3 (JSValue.jsError "timeout") = false ∧
    retryConfigRetry 0 (JSValue.aiError (AIError.mk "m" "NO_API_KEY" false)) = false :=
  ⟨(retryConfig_backoff_policy.1 6 (by decide) (by decide)).2,
   retryConfig_backoff_policy.2.1 3 (by decide) (JSValue.jsError "timeout"),
   retryConfig_backoff_policy.2.2 0 (JSValue.aiError (AIError.mk "m" "NO_API_KEY" false))
     (by decide)⟩

/-- C9: `parseAIError` is total (a total function over every shape of thrown
value, including non-`Error` values) and idempotent: an `AIError` instance —
in particular its own output — passes through unchanged. -/
theorem parseAIError_idempotent :
    ∀ v : JSValue,
      parseAIError (JSValue.aiError (parseAIError v)) = parseAIError v ∧
      ∀ e : AIError, parseAIError (JSValue.aiError e) = e :=
  fun _ => ⟨rfl, fun _ => rfl⟩

/-- C10: at the length-20 boundary the two credential validators disagree:
`validateApiKey` accepts (it requires length ≥ 20) while `isValidApiKey`
rejects (it requires length > 20). -/
theorem validators_disagree_at_length_20 (key : String)
    (hpre : strStartsWith key "sk-" = true) (hlen : key.length = 20) :
    validateApiKey (some key) = none ∧ isValidApiKey (some key) = false := by
  have hne : ¬ (key = "") := by
    intro h
    rw [h] at hlen
    simp at hlen
  constructor
  · simp only [validateApiKey]
    rw [if_neg hne, hpre]
    simp [hlen]
  · simp only [isValidApiKey]
    rw [hpre]
    simp [hlen]

/-- C10 witness: a 20-character key starting with `sk-`. -/
theorem validators_disagree_at_length_20_witness :
    validateApiKey (some "sk-abcdefghijklmnopq") = none ∧
    isValidApiKey (some "sk-abcdefghijklmnopq") = false :=
  validators_disagree_at_length_20 "sk-abcdefghijklmnopq" (by decide) (by decide)

/-! ### Pairing invariant -/

lemma pairedL_length_even {l : List ChatMessage} (h : PairedL l) : l.length % 2 = 0 := by
  induction h with
  | nil => rfl
  | cons u a l hu ha hl ih =>
    simp only [List.length_cons]
    omega

lemma pairedL_append {l : List ChatMessage} (h : PairedL l) (u a : ChatMessage)
    (hu : u.role = Role.user) (ha : a.role = Role.assistant) :
    PairedL (l ++ [u, a]) := by
  induction h with
  | nil => exact PairedL.cons u a [] hu ha PairedL.nil
  | cons v b l' hv hb hl' ih => exact PairedL.cons v b _ hv hb ih

lemma pairedL_drop_two {l : List ChatMessage} (h : PairedL l) : PairedL (l.drop 2) := by
  cases h with
  | nil => exact PairedL.nil
  | cons u a l' hu ha hl' => exact hl'

lemma pairedL_drop_even {l : List ChatMessage} (h : PairedL l) (k : Nat) :
    PairedL (l.drop (2 * k)) := by
  induction k generalizing l with
  | zero => simpa using h
  | succ k ih =>
    have h3 := ih (pairedL_drop_two h)
    rw [List.drop_drop] at h3
    have he : 2 * (k + 1) = 2 + 2 * k := by ring
    rw [he]
    exact h3

lemma pairedL_appendExchange (maxMessages : Nat) {l : List ChatMessage} (h : PairedL l)
    (u a : ChatMessage) (hu : u.role = Role.user) (ha : a.role = Role.assistant) :
    PairedL (appendExchange maxMessages l u a) := by
  have hl' : PairedL (l ++ [u, a]) := pairedL_append h u a hu ha
  unfold appendExchange sliceNeg
  by_cases hgt : (l ++ [u, a]).length > maxMessages * 2
  · rw [if_pos hgt]
    by_cases hk : maxMessages * 2 = 0
    · rw [if_pos hk]
      exact hl'
    · rw [if_neg hk]
      have heven : (l ++ [u, a]).length % 2 = 0 := pairedL_length_even hl'
      obtain ⟨k, hk2⟩ : ∃ k, (l ++ [u, a]).length - maxMessages * 2 = 2 * k :=
        ⟨((l ++ [u, a]).length - maxMessages * 2) / 2, by omega⟩
      rw [hk2]
      exact pairedL_drop_even hl' k
  · rw [if_neg hgt]
    exact hl'

lemma paired_of_pairedL {l : List ChatMessage} (h : PairedL l) : Paired l := by
  induction h with
  | nil =>
    refine ⟨rfl, ?_⟩
    intro i hi
    simp at hi
  | cons u a l' hu ha hl' ih =>
    refine ⟨?_, ?_⟩
    · have hih := ih.1
      simp only [List.length_cons]
      omega
    · intro i hi hieven
      rcases i with _ | (_ | j)
      · constructor
        · simpa using hu
        · simpa using ha
      · omega
      · have hj : j < l'.length := by
          simp only [List.length_cons] at hi
          omega
        have hjeven : j % 2 = 0 := by omega
        have hres := ih.2 j hj hjeven
        simpa [List.getD_cons_succ] using hres

lemma pairedL_of_paired : ∀ l : List ChatMessage, Paired l → PairedL l
  | [], _ => PairedL.nil
  | [x], h => by
    exfalso
    have h1 := h.1
    simp at h1
  | x :: y :: rest, h => by
    have h0 := h.2 0 (by simp) (by decide)
    have hx : x.role = Role.user := by simpa using h0.1
    have hy : y.role = Role.assistant := by simpa using h0.2
    have hrest : Paired rest := by
      refine ⟨?_, ?_⟩
      · have h1 := h.1
        simp only [List.length_cons] at h1
        omega
      · intro j hj hje
        have hres := h.2 (j + 2) (by simp only [List.length_cons]; omega) (by omega)
        simpa [List.getD_cons_succ] using hres
    exact PairedL.cons x y rest hx hy (pairedL_of_paired rest hrest)

/-- C8 counterexample: `reset` (and likewise `initialMessages`) accepts an
arbitrary payload, so a state with a single assistant turn — of odd length,
violating the pairing invariant — is reachable. -/
theorem pairing_invariant_fails_on_reset :
    Relation.ReflTransGen (Step 10) [] [ChatMessage.mk Role.assistant "hi" 0] ∧
    ¬ Paired [ChatMessage.mk Role.assistant "hi" 0] :=
  ⟨Relation.ReflTransGen.single (Step.reset [] [ChatMessage.mk Role.assistant "hi" 0]),
   by decide⟩

/-- C8 (amended): the pairing invariant — even length, user turn at every
even index immediately followed by an assistant turn — holds in every state
reachable from a paired initial state via successful sends, history clears,
and resets whose payloads are themselves paired. -/
theorem pairing_invariant_reachable (maxMessages : Nat) (init s : List ChatMessage)
    (hinit : Paired init)
    (hreach : Relation.ReflTransGen (StepP maxMessages) init s) : Paired s := by
  induction hreach with
  | refl => exact hinit
  | tail hsteps hstep ih =>
    cases hstep with
    | success message reply tUser tAssistant =>
      exact paired_of_pairedL
        (pairedL_appendExchange maxMessages (pairedL_of_paired _ ih) _ _ rfl rfl)
    | clearHistory => exact paired_of_pairedL PairedL.nil
    | reset ms hms => exact hms

/-- C8 witness: one successful exchange from the empty store. -/
theorem pairing_invariant_reachable_witness :
    Paired (appendExchange 10 []
      (ChatMessage.mk Role.user "q" 0) (ChatMessage.mk Role.assistant "r" 1)) :=
  pairing_invariant_reachable 10 [] _ (by decide)
    (Relation.ReflTransGen.single (StepP.success [] "q" "r" 0 1))

/-! ### Error classification -/

/-- C6: `parseAIError` implements the first-match-wins, case-insensitive
substring table over the failure description (ErrorKind names of the spec
map to the codes of the source: MissingCredential = NO_API_KEY, InvalidCredential
= INVALID_API_KEY, RateLimited = RATE_LIMIT, NetworkError = NETWORK_ERROR,
Timeout = TIMEOUT, UpstreamModelError = MODEL_ERROR, Unknown = UNKNOWN); in
particular any description containing "429" with no earlier-matching signal
classifies as (RateLimited, retryable). -/
theorem parseAIError_classification_table (message : String) :
    ((includes (toLowerCase message) "api key" && includes (toLowerCase message) "not") = true →
      (parseAIError (JSValue.jsError message)).code = ERROR_CODES.NO_API_KEY ∧
      (parseAIError (JSValue.jsError message)).isRetryable = false) ∧
    ((includes (toLowerCase message) "api key" && includes (toLowerCase message) "not") = false →
      (includes (toLowerCase message) "invalid" || includes (toLowerCase message) "unauthorized") = true →
      (parseAIError (JSValue.jsError message)).code = ERROR_CODES.INVALID_API_KEY ∧
      (parseAIError (JSValue.jsError message)).isRetryable = false) ∧
    ((includes (toLowerCase message) "api key" && includes (toLowerCase message) "not") = false →
      (includes (toLowerCase message) "invalid" || includes (toLowerCase message) "unauthorized") = false →
      (includes (toLowerCase message) "rate limit" || includes (toLowerCase message) "429") = true →
      (parseAIError (JSValue.jsError message)).code = ERROR_CODES.RATE_LIMIT ∧
      (parseAIError (JSValue.jsError message)).isRetryable = true) ∧
    ((includes (toLowerCase message) "api key" && includes (toLowerCase message) "not") = false →
      (includes (toLowerCase message) "invalid" || includes (toLowerCase message) "unauthorized") = false →
      (includes (toLowerCase message) "rate limit" || includes (toLowerCase message) "429") = false →
      (includes (toLowerCase message) "network" || includes (toLowerCase message) "fetch") = true →
      (parseAIError (JSValue.jsError message)).code = ERROR_CODES.NETWORK_ERROR ∧
      (parseAIError (JSValue.jsError message)).isRetryable = true) ∧
    ((includes (toLowerCase message) "api key" && includes (toLowerCase message) "not") = false →
      (includes (toLowerCase message) "invalid" || includes (toLowerCase message) "unauthorized") = false →
      (includes (toLowerCase message) "rate limit" || includes (toLowerCase message) "429") = false →
      (includes (toLowerCase message) "network" || includes (toLowerCase message) "fetch") = false →
      includes (toLowerCase message) "timeout" = true →
      (parseAIError (JSValue.jsError message)).code = ERROR_CODES.TIMEOUT ∧
      (parseAIError (JSValue.jsError message)).isRetryable = true) ∧
    ((includes (toLowerCase message) "api key" && includes (toLowerCase message) "not") = false →
      (includes (toLowerCase message) "invalid" || includes (toLowerCase message) "unauthorized") = false →
      (includes (toLowerCase message) "rate limit" || includes (toLowerCase message) "429") = false →
      (includes (toLowerCase message) "network" || includes (toLowerCase message) "fetch") = false →
      includes (toLowerCase message) "timeout" = false →
      includes (toLowerCase message) "model" = true →
      (parseAIError (JSValue.jsError message)).code = ERROR_CODES.MODEL_ERROR ∧
      (parseAIError (JSValue.jsError message)).isRetryable = true) ∧
    ((includes (toLowerCase message) "api key" && includes (toLowerCase message) "not") = false →
      (includes (toLowerCase message) "invalid" || includes (toLowerCase message) "unauthorized") = false →
      (includes (toLowerCase message) "rate limit" || includes (toLowerCase message) "429") = false →
      (includes (toLowerCase message) "network" || includes (toLowerCase message) "fetch") = false →
      includes (toLowerCase message) "timeout" = false →
      includes (toLowerCase message) "model" = false →
      (parseAIError (JSValue.jsError message)).code = ERROR_CODES.UNKNOWN ∧
      (parseAIError (JSValue.jsError message)).isRetryable = true) ∧
    ((parseAIError JSValue.other).code = ERROR_CODES.UNKNOWN ∧
      (parseAIError JSValue.other).isRetryable = true) := by
  refine ⟨?_, ?_, ?_, ?_, ?_, ?_, ?_, ?_⟩
  · intro h1
    simp [parseAIError, h1]
  · intro h1 h2
    simp [parseAIError, h1, h2]
  · intro h1 h2 h3
    simp [parseAIError, h1, h2, h3]
  · intro h1 h2 h3 h4
    simp [parseAIError, h1, h2, h3, h4]
  · intro h1 h2 h3 h4 h5
    simp [parseAIError, h1, h2, h3, h4, h5]
  · intro h1 h2 h3 h4 h5 h6
    simp [parseAIError, h1, h2, h3, h4, h5, h6]
  · intro h1 h2 h3 h4 h5 h6
    simp [parseAIError, h1, h2, h3, h4, h5, h6]
  · exact ⟨rfl, rfl⟩

/-- C6 witness: a description containing `429` and no earlier-matching
signal is classified rate-limited and retryable. -/
theorem parseAIError_classification_table_witness :
    (parseAIError (JSValue.jsError "Request failed with status code 429")).code =
      ERROR_CODES.RATE_LIMIT ∧
    (parseAIError (JSValue.jsError "Request failed with status code 429")).isRetryable = true :=
  (parseAIError_classification_table "Request failed with status code 429").2.2.1
    (by decide) (by decide) (by decide)

/-! ### Mutation driver: call counts and mutation-on-success-only -/

lemma mutationFnAttempt_error_of_collabFail (maxMessages : Nat)
    (messages : List ChatMessage) (message : String) (apiKey : Option String)
    (collab : Nat → List (Role × String) → Except JSValue String)
    (hfail : ∀ n out, ∃ e, collab n out = Except.error e) (attempt : Nat) :
    ∃ e c, mutationFnAttempt maxMessages messages message apiKey collab attempt =
      (Except.error e, c) := by
  rcases hk : validateApiKey apiKey with _ | e
  · obtain ⟨e, he⟩ := hfail attempt (outboundMessages maxMessages messages message)
    refine ⟨parseAIError e, 1, ?_⟩
    unfold mutationFnAttempt
    rw [hk, he]
  · refine ⟨e, 0, ?_⟩
    unfold mutationFnAttempt
    rw [hk]

lemma driveMutation_error_of_collabFail (maxMessages : Nat)
    (messages : List ChatMessage) (message : String) (apiKey : Option String)
    (collab : Nat → List (Role × String) → Except JSValue String)
    (hfail : ∀ n out, ∃ e, collab n out = Except.error e) :
    ∀ fuel fc, ∃ e c,
      driveMutation maxMessages messages message apiKey collab fuel fc =
        (Except.error e, c) := by
  intro fuel
  induction fuel with
  | zero =>
    intro fc
    obtain ⟨e, c, h⟩ :=
      mutationFnAttempt_error_of_collabFail maxMessages messages message apiKey collab hfail fc
    exact ⟨e, c, by rw [driveMutation, h]⟩
  | succ fuel ih =>
    intro fc
    obtain ⟨e, c, hattempt⟩ :=
      mutationFnAttempt_error_of_collabFail maxMessages messages message apiKey collab hfail fc
    by_cases hr : retryConfigRetry fc (.aiError e) = true
    · obtain ⟨e2, c2, hrec⟩ := ih (fc + 1)
      refine ⟨e2, c + c2, ?_⟩
      rw [driveMutation, hattempt]
      simp only [hr, if_true, hrec]
    · have hf : retryConfigRetry fc (.aiError e) = false := by
        revert hr
        cases retryConfigRetry fc (.aiError e) <;> simp
      refine ⟨e, c, ?_⟩
      rw [driveMutation, hattempt]
      simp only [hf, if_false, Bool.false_eq_true]

/-- C1: if the completion collaborator fails (every attempt errors), one
`submit` leaves the stored message sequence unchanged — neither the user
turn nor any placeholder is appended. -/
theorem submit_failure_leaves_turns_unchanged (maxMessages : Nat)
    (messages : List ChatMessage) (message : String) (apiKey : Option String)
    (collab : Nat → List (Role × String) → Except JSValue String) (tUser tAssistant : Int)
    (hfail : ∀ n out, ∃ e, collab n out = Except.error e) :
    (submit maxMessages messages message apiKey collab tUser tAssistant).2.1 = messages := by
  obtain ⟨e, c, h⟩ :=
    driveMutation_error_of_collabFail maxMessages messages message apiKey collab hfail 4 0
  unfold submit runMutation
  rw [h]

/-- C1 witness: a collaborator that always times out, against a non-empty
store. -/
theorem submit_failure_leaves_turns_unchanged_witness :
    (submit 10 [ChatMessage.mk Role.user "a" 0, ChatMessage.mk Role.assistant "b" 1]
        "hi" (some "sk-abcdefghijklmnopq")
        (fun _ _ => Except.error (JSValue.jsError "timeout")) 2 3).2.1 =
      [ChatMessage.mk Role.user "a" 0, ChatMessage.mk Role.assistant "b" 1] :=
  submit_failure_leaves_turns_unchanged 10
    [ChatMessage.mk Role.user "a" 0, ChatMessage.mk Role.assistant "b" 1]
    "hi" (some "sk-abcdefghijklmnopq")
    (fun _ _ => Except.error (JSValue.jsError "timeout")) 2 3
    (fun _ _ => ⟨JSValue.jsError "timeout", rfl⟩)

lemma mutationFnAttempt_calls_le_one (maxMessages : Nat)
    (messages : List ChatMessage) (message : String) (apiKey : Option String)
    (collab : Nat → List (Role × String) → Except JSValue String) (attempt : Nat) :
    (mutationFnAttempt maxMessages messages message apiKey collab attempt).2 ≤ 1 := by
  unfold mutationFnAttempt
  cases validateApiKey apiKey with
  | some e => simp
  | none =>
    cases collab attempt (outboundMessages maxMessages messages message) with
    | error e => simp
    | ok r => simp

lemma mutationFnAttempt_calls_eq_one (maxMessages : Nat)
    (messages : List ChatMessage) (message : String) (apiKey : Option String)
    (collab : Nat → List (Role × String) → Except JSValue String) (attempt : Nat)
    (hkey : validateApiKey apiKey = none) :
    (mutationFnAttempt maxMessages messages message apiKey collab attempt).2 = 1 := by
  unfold mutationFnAttempt
  rw [hkey]
  cases collab attempt (outboundMessages maxMessages messages message) with
  | error e => simp
  | ok r => simp

lemma retryConfigRetry_true_lt (fc : Nat) (e : JSValue)
    (h : retryConfigRetry fc e = true) : fc < 3 := by
  by_contra hge
  have h3 : fc ≥ 3 := by omega
  rw [retryConfigRetry, if_pos h3] at h
  exact absurd h (by simp)

lemma driveMutation_calls_le (maxMessages : Nat)
    (messages : List ChatMessage) (message : String) (apiKey : Option String)
    (collab : Nat → List (Role × String) → Except JSValue String) :
    ∀ fuel fc,
      (driveMutation maxMessages messages message apiKey collab fuel fc).2 ≤
        max (4 - fc) 1 := by
  intro fuel
  induction fuel with
  | zero =>
    intro fc
    rw [driveMutation]
    have := mutationFnAttempt_calls_le_one maxMessages messages message apiKey collab fc
    omega
  | succ fuel ih =>
    intro fc
    rw [driveMutation]
    rcases hattempt : mutationFnAttempt maxMessages messages message apiKey collab fc
      with ⟨res, c⟩
    have hc : c ≤ 1 := by
      have := mutationFnAttempt_calls_le_one maxMessages messages message apiKey collab fc
      rw [hattempt] at this
      exact this
    cases res with
    | ok r =>
      simp only
      omega
    | error e =>
      by_cases hr : retryConfigRetry fc (.aiError e) = true
      · have hlt : fc < 3 := retryConfigRetry_true_lt fc (.aiError e) hr
        simp only [hr, if_true]
        have hrec := ih (fc + 1)
        omega
      · have hf : retryConfigRetry fc (.aiError e) = false := by
          revert hr
          cases retryConfigRetry fc (.aiError e) <;> simp
        simp only [hf, if_false, Bool.false_eq_true]
        omega

lemma driveMutation_calls_pos (maxMessages : Nat)
    (messages : List ChatMessage) (message : String) (apiKey : Option String)
    (collab : Nat → List (Role × String) → Except JSValue String)
    (hkey : validateApiKey apiKey = none) :
    ∀ fuel fc, 1 ≤ (driveMutation maxMessages messages message apiKey collab fuel fc).2 := by
  intro fuel
  induction fuel with
  | zero =>
    intro fc
    rw [driveMutation]
    have := mutationFnAttempt_calls_eq_one maxMessages messages message apiKey collab fc hkey
    omega
  | succ fuel ih =>
    intro fc
    rw [driveMutation]
    rcases hattempt : mutationFnAttempt maxMessages messages message apiKey collab fc
      with ⟨res, c⟩
    have hc : c = 1 := by
      have := mutationFnAttempt_calls_eq_one maxMessages messages message apiKey collab fc hkey
      rw [hattempt] at this
      exact this
    cases res with
    | ok r =>
      simp only
      omega
    | error e =>
      by_cases hr : retryConfigRetry fc (.aiError e) = true
      · simp only [hr, if_true]
        omega
      · have hf : retryConfigRetry fc (.aiError e) = false := by
          revert hr
          cases retryConfigRetry fc (.aiError e) <;> simp
        simp only [hf, if_false, Bool.false_eq_true]
        omega

/-- C4 counterexample: a collaborator that fails retryably once and then
succeeds is invoked twice within a single `submit` — the library performs
backoff retries automatically inside the mutation, so "exactly one external
network call per submit" is false. -/
theorem submit_single_call_refuted :
    (submit 10 [] "hi" (some "sk-abcdefghijklmnopq")
        (fun n _ => if n = 0 then Except.error (JSValue.jsError "429") else Except.ok "ok")
        0 1).2.2 = 2 ∧
    (submit 10 [] "hi" (some "sk-abcdefghijklmnopq")
        (fun n _ => if n = 0 then Except.error (JSValue.jsError "429") else Except.ok "ok")
        0 1).2.2 ≠ 1 := by
  decide

/-- C4 (amended): when the credential passes `validateApiKey`, one `submit`
performs at least one and at most four collaborator calls (automatic
backoff-driven retries happen inside `submit`, up to three, per
`retryConfig`), and the Turn Store is mutated exactly once and only on final
success: on failure the messages are unchanged, on success they become
exactly the appended-and-trimmed exchange. -/
theorem submit_side_effect_bounds (maxMessages : Nat)
    (messages : List ChatMessage) (message : String) (apiKey : Option String)
    (collab : Nat → List (Role × String) → Except JSValue String) (tUser tAssistant : Int)
    (hkey : validateApiKey apiKey = none) :
    1 ≤ (submit maxMessages messages message apiKey collab tUser tAssistant).2.2 ∧
    (submit maxMessages messages message apiKey collab tUser tAssistant).2.2 ≤ 4 ∧
    (∀ e, (submit maxMessages messages message apiKey collab tUser tAssistant).1 =
        Except.error e →
      (submit maxMessages messages message apiKey collab tUser tAssistant).2.1 = messages) ∧
    (∀ reply, (submit maxMessages messages message apiKey collab tUser tAssistant).1 =
        Except.ok reply →
      (submit maxMessages messages message apiKey collab tUser tAssistant).2.1 =
        appendExchange maxMessages messages (ChatMessage.mk Role.user message tUser)
          (ChatMessage.mk Role.assistant reply tAssistant)) := by
  have hpos := driveMutation_calls_pos maxMessages messages message apiKey collab hkey 4 0
  have hle := driveMutation_calls_le maxMessages messages message apiKey collab 4 0
  rcases hrun : driveMutation maxMessages messages message apiKey collab 4 0 with ⟨res, calls⟩
  rw [hrun] at hpos hle
  unfold submit runMutation
  rw [hrun]
  cases res with
  | ok r =>
    refine ⟨by simpa using hpos, by simp only; omega, ?_, ?_⟩
    · intro e he
      simp at he
    · intro reply hr
      simp only at hr
      simp only
      cases hr
      rfl
  | error e =>
    refine ⟨by simpa using hpos, by simp only; omega, ?_, ?_⟩
    · intro e2 he
      rfl
    · intro reply hr
      simp at hr

/-- C4 witness: a collaborator succeeding at once, with a valid key. -/
theorem submit_side_effect_bounds_witness :
    1 ≤ (submit 10 [] "hi" (some "sk-abcdefghijklmnopq")
          (fun _ _ => Except.ok "ok") 0 1).2.2 ∧
    (submit 10 [] "hi" (some "sk-abcdefghijklmnopq")
          (fun _ _ => Except.ok "ok") 0 1).2.2 ≤ 4 ∧
    (∀ e, (submit 10 [] "hi" (some "sk-abcdefghijklmnopq")
          (fun _ _ => Except.ok "ok") 0 1).1 = Except.error e →
      (submit 10 [] "hi" (some "sk-abcdefghijklmnopq")
          (fun _ _ => Except.ok "ok") 0 1).2.1 = []) ∧
    (∀ reply, (submit 10 [] "hi" (some "sk-abcdefghijklmnopq")
          (fun _ _ => Except.ok "ok") 0 1).1 = Except.ok reply →
      (submit 10 [] "hi" (some "sk-abcdefghijklmnopq")
          (fun _ _ => Except.ok "ok") 0 1).2.1 =
        appendExchange 10 [] (ChatMessage.mk Role.user "hi" 0)
          (ChatMessage.mk Role.assistant reply 1)) :=
  submit_side_effect_bounds 10 [] "hi" (some "sk-abcdefghijklmnopq")
    (fun _ _ => Except.ok "ok") 0 1 (by decide)

end LangAI
